import Mathlib

/-!
Verification of the `fund_manager` Anchor program
(src/contracts/programs/fund_manager/src/lib.rs): a custodial fund escrow with
an admin-gated disbursement path and a recipient whitelist.

Machine integers are embedded as `Nat` with explicit bounds: `u64` arithmetic
uses `checked_add_u64`/`checked_sub_u64` that return `none` exactly when the
Rust `checked_add`/`checked_sub` would; the subsequent `.unwrap()` in the
source, which panics and aborts the whole transaction, is embedded as the
`arithmeticPanic` error of the `Except` monad (on Solana a panic aborts the
transaction atomically and surfaces to the caller as a failure).

Errors abort the enclosing instruction with no state change: every handler
returns `Except ProgramError σ`, and the platform's transactional semantics
(`commit`) keeps the pre-state on any error.
-/

namespace FundManager

/-- Maximum value of an unsigned 64-bit integer (`u64::MAX`). -/
def U64_MAX : Nat := 2 ^ 64 - 1

/-- Maximum value of an unsigned 16-bit integer (`u16::MAX`). -/
def U16_MAX : Nat := 2 ^ 16 - 1

/-- Account identities (Solana `Pubkey`), embedded as naturals. -/
abbrev Pubkey := Nat

/-- The escrow ledger root state (`FundAccount` in the source). -/
structure FundAccount where
  admin : Pubkey
  total_funds : Nat
  bump : Nat
  whitelist_count : Nat
  deriving Repr, DecidableEq

/-- One whitelist policy record (`WhitelistEntry` in the source). The Rust
`label: String` is kept as a `String`; `label.len()` in Rust is the UTF-8 byte
length, embedded as `String.utf8ByteSize`. `added_at` is the `i64` clock
timestamp. -/
structure WhitelistEntry where
  address : Pubkey
  label : String
  is_active : Bool
  added_by : Pubkey
  added_at : Int
  deriving Repr, DecidableEq

/-- An SPL token account, reduced to the fields the program reads:
its `owner` and its `amount` (a `u64` balance). -/
structure TokenAccount where
  owner : Pubkey
  amount : Nat
  deriving Repr, DecidableEq

/-- The program's typed error enum (`FundError` in the source). -/
inductive FundError where
  | UnauthorizedAdmin
  | InsufficientFunds
  | RecipientNotWhitelisted
  | WhitelistAddressMismatch
  | WhitelistEntryNotActive
  | LabelTooLong
  deriving Repr, DecidableEq

/-- Every way an instruction of this program can fail:
a typed `FundError` from a `require!`, the framework's account-resolution
failures (a `seeds`-addressed account that does not exist, or `init` on an
address already in use), a failure reported by the external token transfer
CPI and propagated by `?`, or the abort caused by `.unwrap()` on a failed
checked addition/subtraction. -/
inductive ProgramError where
  | fund : FundError → ProgramError
  | accountNotFound : ProgramError
  | accountAlreadyInUse : ProgramError
  | transferFailed : ProgramError
  | arithmeticPanic : ProgramError
  deriving Repr, DecidableEq

/-- The `require!(cond, err)` macro: continue when `cond` holds, abort with
the typed error otherwise. -/
def require (cond : Prop) [Decidable cond] (err : FundError) :
    Except ProgramError Unit :=
  if cond then .ok () else .error (.fund err)

/-- Rust `u64::checked_add`. -/
def checked_add_u64 (a b : Nat) : Option Nat :=
  if a + b ≤ U64_MAX then some (a + b) else none

/-- Rust `u64::checked_sub`. -/
def checked_sub_u64 (a b : Nat) : Option Nat :=
  if b ≤ a then some (a - b) else none

/-- Rust `u16::checked_add`. -/
def checked_add_u16 (a b : Nat) : Option Nat :=
  if a + b ≤ U16_MAX then some (a + b) else none

/-- Rust `.unwrap()` on the result of a checked arithmetic operation: a `none`
panics, which aborts the transaction and surfaces as a failure. -/
def unwrapOrPanic : Option Nat → Except ProgramError Nat
  | some n => .ok n
  | none => .error .arithmeticPanic

/-- Modelled from the spec: the Asset Custody Primitive (§6), i.e. the SPL
`token::transfer` CPI, whose implementation is not under src/. It is an
atomic, all-or-nothing move of `amount` from `source` to `dest`: it fails
(reporting insufficient balance or an arithmetic fault on the destination
`u64` balance) without touching either account, or debits and credits both.
Authorization (signature or derivation proof) is checked by the platform,
not by this core, and is not part of the balance semantics. -/
def tokenTransfer (source dest : TokenAccount) (amount : Nat) :
    Except ProgramError (TokenAccount × TokenAccount) :=
  if amount ≤ source.amount ∧ dest.amount + amount ≤ U64_MAX then
    .ok ({ source with amount := source.amount - amount },
         { dest with amount := dest.amount + amount })
  else
    .error .transferFailed

/-- Handler of `initialize(admin)`: a fresh ledger with zero funds and an
empty whitelist counter. -/
def initFundAccount (admin : Pubkey) (bump : Nat) : FundAccount :=
  { admin := admin, total_funds := 0, bump := bump, whitelist_count := 0 }

/-- Handler of `store_funds(amount)` (source lines 19–36): transfer `amount`
from the caller's token account into the fund's token account, then
`total_funds += amount` (checked, unwrapped). No admin check. Returns the
updated `(fund_account, from_token_account, fund_token_account)`. -/
def store_funds (fund_account : FundAccount)
    (from_token_account fund_token_account : TokenAccount)
    (authority : Pubkey) (amount : Nat) :
    Except ProgramError (FundAccount × TokenAccount × TokenAccount) := do
  let (from_acc, fund_acc) ← tokenTransfer from_token_account fund_token_account amount
  let tf ← unwrapOrPanic (checked_add_u64 fund_account.total_funds amount)
  return ({ fund_account with total_funds := tf }, from_acc, fund_acc)

/-- Handler of `allocate_funds(amount)` (source lines 38–83): four `require!`
checks in source order (admin, funds, entry active, entry address matches the
recipient token account's owner), then the PDA-signed transfer out of the
fund's token account, then `total_funds -= amount` (checked, unwrapped).
Returns the updated `(fund_account, fund_token_account, to_token_account)`. -/
def allocate_funds (fund_account : FundAccount)
    (fund_token_account to_token_account : TokenAccount)
    (whitelist_entry : WhitelistEntry) (admin : Pubkey) (amount : Nat) :
    Except ProgramError (FundAccount × TokenAccount × TokenAccount) := do
  require (admin = fund_account.admin) .UnauthorizedAdmin
  require (fund_account.total_funds ≥ amount) .InsufficientFunds
  require (whitelist_entry.is_active = true) .RecipientNotWhitelisted
  require (whitelist_entry.address = to_token_account.owner) .WhitelistAddressMismatch
  let (fund_acc, to_acc) ← tokenTransfer fund_token_account to_token_account amount
  let tf ← unwrapOrPanic (checked_sub_u64 fund_account.total_funds amount)
  return ({ fund_account with total_funds := tf }, fund_acc, to_acc)

/-- Handler of `set_admin(new_admin)` (source lines 85–95): admin-only,
unconditional replacement of `admin`. -/
def set_admin (fund_account : FundAccount)
    (current_admin new_admin : Pubkey) : Except ProgramError FundAccount := do
  require (current_admin = fund_account.admin) .UnauthorizedAdmin
  return { fund_account with admin := new_admin }

/-- Handler of `add_whitelist(address, label)` (source lines 97–120): admin
check, label length check (`label.len() <= 64`, UTF-8 bytes), then the fresh
entry's five fields are written and `whitelist_count += 1` (checked,
unwrapped). `now` is the `Clock` collaborator's current timestamp. -/
def add_whitelist (fund_account : FundAccount) (admin : Pubkey)
    (address : Pubkey) (label : String) (now : Int) :
    Except ProgramError (FundAccount × WhitelistEntry) := do
  require (admin = fund_account.admin) .UnauthorizedAdmin
  require (label.utf8ByteSize ≤ 64) .LabelTooLong
  let entry : WhitelistEntry :=
    { address := address, label := label, is_active := true,
      added_by := admin, added_at := now }
  let count ← unwrapOrPanic (checked_add_u16 fund_account.whitelist_count 1)
  return ({ fund_account with whitelist_count := count }, entry)

/-- Handler of `remove_whitelist()` (source lines 122–139): admin check, then
`require!(whitelist_entry.is_active)`, then `is_active = false`. The
`fund_account` is in the context (mutably) but never written; it is returned
unchanged to make that frame condition provable. -/
def remove_whitelist (fund_account : FundAccount)
    (whitelist_entry : WhitelistEntry) (admin : Pubkey) :
    Except ProgramError (FundAccount × WhitelistEntry) := do
  require (admin = fund_account.admin) .UnauthorizedAdmin
  require (whitelist_entry.is_active = true) .WhitelistEntryNotActive
  return (fund_account, { whitelist_entry with is_active := false })

/-- Handler of `toggle_whitelist(is_active)` (source lines 141–153): admin
check, then unconditionally `whitelist_entry.is_active = is_active`. -/
def toggle_whitelist (fund_account : FundAccount)
    (whitelist_entry : WhitelistEntry) (admin : Pubkey) (is_active : Bool) :
    Except ProgramError (FundAccount × WhitelistEntry) := do
  require (admin = fund_account.admin) .UnauthorizedAdmin
  return (fund_account, { whitelist_entry with is_active := is_active })

/-- The platform's transactional commit: a failed instruction leaves the
pre-state untouched; a successful one installs the post-state. -/
def commit {σ : Type} (pre : σ) : Except ProgramError σ → σ
  | .ok post => post
  | .error _ => pre

/-- The deployed whitelist: one `WhitelistEntry` PDA per recipient identity,
keyed by the `address` seed used at `init` time. -/
abbrev WhitelistStore := List (Pubkey × WhitelistEntry)

/-- PDA lookup: the entry stored at seeds `[b"whitelist", key]`, if any. -/
def lookupEntry : WhitelistStore → Pubkey → Option WhitelistEntry
  | [], _ => none
  | (k, e) :: rest, key => if key = k then some e else lookupEntry rest key

/-- Anchor's resolution of the `whitelist_entry` account of `AllocateFunds`
(source lines 199–203): the account at seeds
`[b"whitelist", to_token_account.owner]` must exist and deserialize, else the
instruction fails before the handler body runs. -/
def resolveEntry (wl : WhitelistStore) (key : Pubkey) :
    Except ProgramError WhitelistEntry :=
  match lookupEntry wl key with
  | some e => .ok e
  | none => .error .accountNotFound

/-- The on-chain state one deployment of the program owns: the ledger
account, the fund's token account, and all whitelist entry PDAs. -/
structure LedgerState where
  fund_account : FundAccount
  fund_token_account : TokenAccount
  whitelist : WhitelistStore
  deriving Repr, DecidableEq

/-- The full `add_whitelist` instruction: Anchor's `init` on the PDA at seeds
`[b"whitelist", address]` fails if that account already exists (keyed
insert); otherwise the handler runs and the fresh entry is installed. -/
def add_whitelist_ix (st : LedgerState) (admin : Pubkey) (address : Pubkey)
    (label : String) (now : Int) : Except ProgramError LedgerState :=
  match lookupEntry st.whitelist address with
  | some _ => .error .accountAlreadyInUse
  | none => do
    let (fa, entry) ← add_whitelist st.fund_account admin address label now
    return { st with fund_account := fa,
                     whitelist := (address, entry) :: st.whitelist }

/-- The deployed SPL token accounts, keyed by the token account's own
address (the account pubkey a caller names in an instruction), which is
distinct from the `owner` field recorded inside the account. -/
abbrev TokenStore := List (Pubkey × TokenAccount)

/-- The token account deployed at `key`, if any. -/
def lookupToken : TokenStore → Pubkey → Option TokenAccount
  | [], _ => none
  | (k, a) :: rest, key => if key = k then some a else lookupToken rest key

/-- Write back an updated token account at `key`. -/
def updateToken : TokenStore → Pubkey → TokenAccount → TokenStore
  | [], _, _ => []
  | (k, a) :: rest, key, v =>
      if key = k then (key, v) :: rest else (k, a) :: updateToken rest key v

/-- Anchor's resolution of an `Account<'info, TokenAccount>` field: the
account named by the caller must exist and deserialize, else the
instruction fails before the handler body runs. -/
def getToken (ts : TokenStore) (key : Pubkey) :
    Except ProgramError TokenAccount :=
  match lookupToken ts key with
  | some a => .ok a
  | none => .error .accountNotFound

/-- Modelled from the spec: the Asset Custody Primitive (§6) acting on the
deployed token accounts, which the caller names by address. A transfer
between two distinct accounts debits the source and credits the
destination atomically via `tokenTransfer`; naming the same account twice
is the SPL self-transfer, which validates the balance and moves nothing.
Authorization (signature or derivation proof) is the platform's concern,
not part of the balance semantics. -/
def transferInStore (ts : TokenStore) (src_key dst_key : Pubkey)
    (amount : Nat) : Except ProgramError TokenStore := do
  let src ← getToken ts src_key
  let dst ← getToken ts dst_key
  if src_key = dst_key then
    if amount ≤ src.amount then .ok ts else .error .transferFailed
  else
    match tokenTransfer src dst amount with
    | .ok out => .ok (updateToken (updateToken ts src_key out.1) dst_key out.2)
    | .error e => .error e

/-- The full on-chain state of one deployment: the ledger account, every
deployed token account, and the whitelist entry PDAs. `FundAccount`
(source lines 259–266) stores no custody-account address, so no field here
designates "the" escrow token account: which token accounts an instruction
touches is decided solely by the addresses the caller passes. -/
structure ChainState where
  fund_account : FundAccount
  tokens : TokenStore
  whitelist : WhitelistStore
  deriving Repr, DecidableEq

/-- The full `store_funds` instruction (handler at source lines 19–36,
accounts struct `StoreFunds` at lines 174–186): the caller names the
addresses of `from_token_account` and `fund_token_account`. The accounts
struct puts only `#[account(mut)]` on both — no `seeds`, `address` or
`has_one` constraint ties `fund_token_account` to the fund PDA — so any
deployed token account may stand as the deposit destination. After the
transfer succeeds, `total_funds += amount` (checked, unwrapped). -/
def store_funds_ix (st : ChainState) (from_key fund_key : Pubkey)
    (authority : Pubkey) (amount : Nat) : Except ProgramError ChainState := do
  let ts ← transferInStore st.tokens from_key fund_key amount
  let tf ← unwrapOrPanic (checked_add_u64 st.fund_account.total_funds amount)
  return { st with
           fund_account := { st.fund_account with total_funds := tf },
           tokens := ts }

/-- The full `allocate_funds` instruction (handler at source lines 38–83,
accounts struct `AllocateFunds` at lines 189–207): the caller names the
addresses of `fund_token_account` (again only `#[account(mut)]`, bound to
no escrow account) and `to_token_account`; Anchor resolves both and the
whitelist entry PDA at seeds `[b"whitelist", to_token_account.owner]`;
then the handler's four `require!` checks run in source order, then the
PDA-signed transfer, then `total_funds -= amount` (checked, unwrapped). -/
def allocate_funds_ix (st : ChainState) (fund_key to_key : Pubkey)
    (admin : Pubkey) (amount : Nat) : Except ProgramError ChainState := do
  let _fund_acc ← getToken st.tokens fund_key
  let to_acc ← getToken st.tokens to_key
  let whitelist_entry ← resolveEntry st.whitelist to_acc.owner
  require (admin = st.fund_account.admin) .UnauthorizedAdmin
  require (st.fund_account.total_funds ≥ amount) .InsufficientFunds
  require (whitelist_entry.is_active = true) .RecipientNotWhitelisted
  require (whitelist_entry.address = to_acc.owner) .WhitelistAddressMismatch
  let ts ← transferInStore st.tokens fund_key to_key amount
  let tf ← unwrapOrPanic (checked_sub_u64 st.fund_account.total_funds amount)
  return { st with
           fund_account := { st.fund_account with total_funds := tf },
           tokens := ts }

/-! ## Unfolding infrastructure -/

theorem bind_eq_ok {ε α β : Type} {x : Except ε α} {f : α → Except ε β} {b : β} :
    x >>= f = .ok b ↔ ∃ a, x = .ok a ∧ f a = .ok b := by
  cases x <;> simp [Bind.bind, Except.bind]

theorem bind_eq_error {ε α β : Type} {x : Except ε α} {f : α → Except ε β} {e : ε} :
    x >>= f = .error e ↔ x = .error e ∨ ∃ a, x = .ok a ∧ f a = .error e := by
  cases x <;> simp [Bind.bind, Except.bind]

/-- Rust `.unwrap()` applied to a `u64` checked addition. -/
theorem unwrap_checked_add_u64 (a b : Nat) :
    unwrapOrPanic (checked_add_u64 a b) =
      if a + b ≤ U64_MAX then .ok (a + b) else .error .arithmeticPanic := by
  unfold checked_add_u64
  split <;> rfl

/-- Rust `.unwrap()` applied to a `u64` checked subtraction. -/
theorem unwrap_checked_sub_u64 (a b : Nat) :
    unwrapOrPanic (checked_sub_u64 a b) =
      if b ≤ a then .ok (a - b) else .error .arithmeticPanic := by
  unfold checked_sub_u64
  split <;> rfl

/-- Rust `.unwrap()` applied to a `u16` checked addition. -/
theorem unwrap_checked_add_u16 (a b : Nat) :
    unwrapOrPanic (checked_add_u16 a b) =
      if a + b ≤ U16_MAX then .ok (a + b) else .error .arithmeticPanic := by
  unfold checked_add_u16
  split <;> rfl

/-- Unfolding of `store_funds` as a decision cascade: transfer feasibility, then the
checked increment, then success. -/
theorem store_funds_eq (fa : FundAccount) (src dst : TokenAccount)
    (auth : Pubkey) (amt : Nat) :
    store_funds fa src dst auth amt =
      if amt ≤ src.amount ∧ dst.amount + amt ≤ U64_MAX then
        if fa.total_funds + amt ≤ U64_MAX then
          .ok ({ fa with total_funds := fa.total_funds + amt },
               { src with amount := src.amount - amt },
               { dst with amount := dst.amount + amt })
        else .error .arithmeticPanic
      else .error .transferFailed := by
  unfold store_funds tokenTransfer
  split
  · by_cases h : fa.total_funds + amt ≤ U64_MAX <;>
      simp [Bind.bind, Except.bind, unwrap_checked_add_u64, h, Pure.pure,
            Except.pure]
  · rfl

/-- Unfolding of `allocate_funds` as a decision cascade mirroring the source's `require!`
order; the checked subtraction cannot fail because the funds check already
ensured `amount ≤ total_funds`. -/
theorem allocate_funds_eq (fa : FundAccount) (ft tt : TokenAccount)
    (we : WhitelistEntry) (admin : Pubkey) (amt : Nat) :
    allocate_funds fa ft tt we admin amt =
      if admin = fa.admin then
        if fa.total_funds ≥ amt then
          if we.is_active = true then
            if we.address = tt.owner then
              if amt ≤ ft.amount ∧ tt.amount + amt ≤ U64_MAX then
                .ok ({ fa with total_funds := fa.total_funds - amt },
                     { ft with amount := ft.amount - amt },
                     { tt with amount := tt.amount + amt })
              else .error .transferFailed
            else .error (.fund .WhitelistAddressMismatch)
          else .error (.fund .RecipientNotWhitelisted)
        else .error (.fund .InsufficientFunds)
      else .error (.fund .UnauthorizedAdmin) := by
  unfold allocate_funds require tokenTransfer
  by_cases h1 : admin = fa.admin <;>
  by_cases h2 : fa.total_funds ≥ amt <;>
  by_cases h3 : we.is_active = true <;>
  by_cases h4 : we.address = tt.owner <;>
  by_cases h5 : amt ≤ ft.amount ∧ tt.amount + amt ≤ U64_MAX <;>
    simp [h1, h2, h3, h4, h5, ge_iff_le, Bind.bind, Except.bind, Pure.pure,
          Except.pure, unwrap_checked_sub_u64]

/-- Unfolding of `set_admin` as a decision cascade. -/
theorem set_admin_eq (fa : FundAccount) (cur new : Pubkey) :
    set_admin fa cur new =
      if cur = fa.admin then .ok { fa with admin := new }
      else .error (.fund .UnauthorizedAdmin) := by
  unfold set_admin require
  by_cases h : cur = fa.admin <;>
    simp [h, Bind.bind, Except.bind, Pure.pure, Except.pure]

/-- Unfolding of the `add_whitelist` handler as a decision cascade. -/
theorem add_whitelist_eq (fa : FundAccount) (admin addr : Pubkey)
    (label : String) (now : Int) :
    add_whitelist fa admin addr label now =
      if admin = fa.admin then
        if label.utf8ByteSize ≤ 64 then
          if fa.whitelist_count + 1 ≤ U16_MAX then
            .ok ({ fa with whitelist_count := fa.whitelist_count + 1 },
                 { address := addr, label := label, is_active := true,
                   added_by := admin, added_at := now })
          else .error .arithmeticPanic
        else .error (.fund .LabelTooLong)
      else .error (.fund .UnauthorizedAdmin) := by
  unfold add_whitelist require
  by_cases h1 : admin = fa.admin <;>
  by_cases h2 : label.utf8ByteSize ≤ 64 <;>
  by_cases h3 : fa.whitelist_count + 1 ≤ U16_MAX <;>
    simp [h1, h2, h3, Bind.bind, Except.bind, Pure.pure, Except.pure,
          unwrap_checked_add_u16]

/-- Unfolding of `remove_whitelist` as a decision cascade. -/
theorem remove_whitelist_eq (fa : FundAccount) (we : WhitelistEntry)
    (admin : Pubkey) :
    remove_whitelist fa we admin =
      if admin = fa.admin then
        if we.is_active = true then
          .ok (fa, { we with is_active := false })
        else .error (.fund .WhitelistEntryNotActive)
      else .error (.fund .UnauthorizedAdmin) := by
  unfold remove_whitelist require
  by_cases h1 : admin = fa.admin <;>
  by_cases h2 : we.is_active = true <;>
    simp [h1, h2, Bind.bind, Except.bind, Pure.pure, Except.pure]

/-- Unfolding of `toggle_whitelist` as a decision cascade. -/
theorem toggle_whitelist_eq (fa : FundAccount) (we : WhitelistEntry)
    (admin : Pubkey) (b : Bool) :
    toggle_whitelist fa we admin b =
      if admin = fa.admin then .ok (fa, { we with is_active := b })
      else .error (.fund .UnauthorizedAdmin) := by
  unfold toggle_whitelist require
  by_cases h : admin = fa.admin <;>
    simp [h, Bind.bind, Except.bind, Pure.pure, Except.pure]

/-- Unfolding of the full `store_funds` instruction: the transfer between
the caller-named accounts, then the checked increment of `total_funds`. -/
theorem store_funds_ix_eq (st : ChainState) (from_key fund_key : Pubkey)
    (auth : Pubkey) (amt : Nat) :
    store_funds_ix st from_key fund_key auth amt =
      match transferInStore st.tokens from_key fund_key amt with
      | .error e => .error e
      | .ok ts =>
        if st.fund_account.total_funds + amt ≤ U64_MAX then
          .ok { st with
                fund_account := { st.fund_account with
                  total_funds := st.fund_account.total_funds + amt },
                tokens := ts }
        else .error .arithmeticPanic := by
  unfold store_funds_ix
  cases htr : transferInStore st.tokens from_key fund_key amt <;>
    by_cases h : st.fund_account.total_funds + amt ≤ U64_MAX <;>
    simp [htr, h, Bind.bind, Except.bind, unwrap_checked_add_u64, Pure.pure,
          Except.pure]

/-- Unfolding of the full `allocate_funds` instruction as a decision
cascade: resolution of the two caller-named token accounts and the
whitelist entry PDA, then the handler's `require!` checks in source order,
then the transfer; the checked subtraction cannot fail because the funds
check already ensured `amount ≤ total_funds`. -/
theorem allocate_funds_ix_eq (st : ChainState) (fund_key to_key : Pubkey)
    (admin : Pubkey) (amt : Nat) :
    allocate_funds_ix st fund_key to_key admin amt =
      match lookupToken st.tokens fund_key with
      | none => .error .accountNotFound
      | some _ =>
        match lookupToken st.tokens to_key with
        | none => .error .accountNotFound
        | some to_acc =>
          match lookupEntry st.whitelist to_acc.owner with
          | none => .error .accountNotFound
          | some we =>
            if admin = st.fund_account.admin then
              if st.fund_account.total_funds ≥ amt then
                if we.is_active = true then
                  if we.address = to_acc.owner then
                    match transferInStore st.tokens fund_key to_key amt with
                    | .error e => .error e
                    | .ok ts =>
                      .ok { st with
                            fund_account := { st.fund_account with
                              total_funds :=
                                st.fund_account.total_funds - amt },
                            tokens := ts }
                  else .error (.fund .WhitelistAddressMismatch)
                else .error (.fund .RecipientNotWhitelisted)
              else .error (.fund .InsufficientFunds)
            else .error (.fund .UnauthorizedAdmin) := by
  unfold allocate_funds_ix getToken resolveEntry require
  cases hf : lookupToken st.tokens fund_key with
  | none => simp [hf, Bind.bind, Except.bind]
  | some fund_acc =>
    cases ht : lookupToken st.tokens to_key with
    | none => simp [hf, ht, Bind.bind, Except.bind]
    | some to_acc =>
      cases he : lookupEntry st.whitelist to_acc.owner with
      | none => simp [hf, ht, he, Bind.bind, Except.bind]
      | some we =>
        by_cases h1 : admin = st.fund_account.admin <;>
        by_cases h2 : st.fund_account.total_funds ≥ amt <;>
        by_cases h3 : we.is_active = true <;>
        by_cases h4 : we.address = to_acc.owner <;>
        cases htr : transferInStore st.tokens fund_key to_key amt <;>
          simp [hf, ht, he, h1, h2, h3, h4, htr, ge_iff_le, Bind.bind,
                Except.bind, Pure.pure, Except.pure, unwrap_checked_sub_u64]

/-- The full `add_whitelist` instruction as a decision cascade: Anchor's
`init` collision check on the entry PDA, then the handler. -/
theorem add_whitelist_ix_eq (st : LedgerState) (admin addr : Pubkey)
    (label : String) (now : Int) :
    add_whitelist_ix st admin addr label now =
      match lookupEntry st.whitelist addr with
      | some _ => .error .accountAlreadyInUse
      | none =>
        if admin = st.fund_account.admin then
          if label.utf8ByteSize ≤ 64 then
            if st.fund_account.whitelist_count + 1 ≤ U16_MAX then
              .ok { st with
                    fund_account := { st.fund_account with
                      whitelist_count := st.fund_account.whitelist_count + 1 },
                    whitelist := (addr,
                      { address := addr, label := label, is_active := true,
                        added_by := admin, added_at := now })
                      :: st.whitelist }
            else .error .arithmeticPanic
          else .error (.fund .LabelTooLong)
        else .error (.fund .UnauthorizedAdmin) := by
  unfold add_whitelist_ix
  cases hl : lookupEntry st.whitelist addr with
  | some e => rfl
  | none =>
    rw [add_whitelist_eq]
    by_cases h1 : admin = st.fund_account.admin <;>
    by_cases h2 : label.utf8ByteSize ≤ 64 <;>
    by_cases h3 : st.fund_account.whitelist_count + 1 ≤ U16_MAX <;>
      simp [h1, h2, h3, Bind.bind, Except.bind, Pure.pure, Except.pure]

/-- C1: the code violates the conservation claim's mirror component.
`StoreFunds` (source lines 174–186) places no constraint tying
`fund_token_account` to an escrow custody account, and `FundAccount`
stores no custody address, so a depositor can name their own second token
account as `fund_token_account`: from an initialized ledger, the transfer
succeeds between the depositor's two accounts (addresses 1 and 2, both
owned by identity 50), `total_funds` rises to 100, yet the escrow's actual
custody account (address 10, owned by the fund authority 100) still holds
0 — after this successful `store_funds` call, `total_funds` no longer
equals the custody primitive's held balance. -/
theorem store_funds_breaks_mirror :
    store_funds_ix
      { fund_account := initFundAccount 0 255,
        tokens := [(10, ⟨100, 0⟩), (1, ⟨50, 100⟩), (2, ⟨50, 0⟩)],
        whitelist := [] } 1 2 50 100 =
      .ok { fund_account := ⟨0, 100, 255, 0⟩,
            tokens := [(10, ⟨100, 0⟩), (1, ⟨50, 0⟩), (2, ⟨50, 100⟩)],
            whitelist := [] } ∧
    lookupToken [(10, ⟨100, 0⟩), (1, ⟨50, 0⟩), (2, ⟨50, 100⟩)] 10 =
      some ⟨100, 0⟩ ∧
    (⟨0, 100, 255, 0⟩ : FundAccount).total_funds ≠
      (⟨100, 0⟩ : TokenAccount).amount := by
  refine ⟨by rfl, by rfl, by decide⟩

/-- C2: whenever `amount > total_funds`, `allocate_funds` called by the
admin fails with `InsufficientFunds`, whatever the whitelist entry and the
token accounts, and the committed ledger state is unchanged. -/
theorem allocate_insufficient_funds (fa : FundAccount)
    (ft tt : TokenAccount) (we : WhitelistEntry) (amt : Nat)
    (hgt : amt > fa.total_funds) :
    allocate_funds fa ft tt we fa.admin amt =
      .error (.fund .InsufficientFunds) ∧
    commit fa ((allocate_funds fa ft tt we fa.admin amt).map Prod.fst) = fa := by
  have h : allocate_funds fa ft tt we fa.admin amt =
      .error (.fund .InsufficientFunds) := by
    rw [allocate_funds_eq, if_pos rfl, if_neg (by omega)]
  exact ⟨h, by rw [h]; rfl⟩

/-- Witness for C2: a ledger holding 5 rejects a disbursement of 6. -/
theorem allocate_insufficient_funds_witness :
    allocate_funds ⟨0, 5, 255, 0⟩ ⟨7, 5⟩ ⟨2, 0⟩ ⟨2, "x", true, 0, 0⟩ 0 6 =
      .error (.fund .InsufficientFunds) :=
  (allocate_insufficient_funds ⟨0, 5, 255, 0⟩ ⟨7, 5⟩ ⟨2, 0⟩
    ⟨2, "x", true, 0, 0⟩ 6 (by decide)).1

/-- C4: every admin-only operation (`allocate_funds`, `set_admin`,
`add_whitelist`, `remove_whitelist`, `toggle_whitelist`), invoked by a
caller distinct from the stored admin, fails with `UnauthorizedAdmin`, and
the committed ledger and whitelist state are unchanged. -/
theorem admin_gate (fa : FundAccount) (ft tt : TokenAccount)
    (we : WhitelistEntry) (caller new_admin addr : Pubkey) (label : String)
    (now : Int) (b : Bool) (amt : Nat) (hne : caller ≠ fa.admin) :
    allocate_funds fa ft tt we caller amt =
      .error (.fund .UnauthorizedAdmin) ∧
    set_admin fa caller new_admin = .error (.fund .UnauthorizedAdmin) ∧
    add_whitelist fa caller addr label now =
      .error (.fund .UnauthorizedAdmin) ∧
    remove_whitelist fa we caller = .error (.fund .UnauthorizedAdmin) ∧
    toggle_whitelist fa we caller b = .error (.fund .UnauthorizedAdmin) ∧
    commit fa ((allocate_funds fa ft tt we caller amt).map Prod.fst) = fa ∧
    commit fa (set_admin fa caller new_admin) = fa ∧
    commit fa ((add_whitelist fa caller addr label now).map Prod.fst) = fa ∧
    commit (fa, we) (remove_whitelist fa we caller) = (fa, we) ∧
    commit (fa, we) (toggle_whitelist fa we caller b) = (fa, we) := by
  refine ⟨?_, ?_, ?_, ?_, ?_, ?_, ?_, ?_, ?_, ?_⟩ <;>
    simp [allocate_funds_eq, set_admin_eq, add_whitelist_eq,
          remove_whitelist_eq, toggle_whitelist_eq, hne, commit, Except.map]

/-- Witness for C4: caller 1 against admin 0 is rejected everywhere. -/
theorem admin_gate_witness :
    allocate_funds ⟨0, 5, 255, 0⟩ ⟨7, 5⟩ ⟨2, 0⟩ ⟨2, "x", true, 0, 0⟩ 1 3 =
      .error (.fund .UnauthorizedAdmin) ∧
    set_admin ⟨0, 5, 255, 0⟩ 1 9 = .error (.fund .UnauthorizedAdmin) ∧
    remove_whitelist ⟨0, 5, 255, 0⟩ ⟨2, "x", true, 0, 0⟩ 1 =
      .error (.fund .UnauthorizedAdmin) := by
  have h := admin_gate ⟨0, 5, 255, 0⟩ ⟨7, 5⟩ ⟨2, 0⟩ ⟨2, "x", true, 0, 0⟩
    1 9 2 "lbl" 0 true 3 (by decide)
  exact ⟨h.1, h.2.1, h.2.2.2.1⟩

/-- C3: with the admin and sufficient-funds preconditions holding, and the
two caller-named token accounts resolving, `allocate_funds` fails when the
disbursement target identity has no whitelist entry (Anchor's PDA
resolution) or has an inactive one, and succeeds only when an active
entry's `address` equals the target identity. -/
theorem allocate_whitelist_gate (st : ChainState) (fund_key to_key : Pubkey)
    (fund_acc to_acc : TokenAccount) (amt : Nat)
    (hfk : lookupToken st.tokens fund_key = some fund_acc)
    (htk : lookupToken st.tokens to_key = some to_acc)
    (hfund : st.fund_account.total_funds ≥ amt) :
    (lookupEntry st.whitelist to_acc.owner = none →
      allocate_funds_ix st fund_key to_key st.fund_account.admin amt =
        .error .accountNotFound) ∧
    (∀ e, lookupEntry st.whitelist to_acc.owner = some e →
      e.is_active = false →
      allocate_funds_ix st fund_key to_key st.fund_account.admin amt =
        .error (.fund .RecipientNotWhitelisted)) ∧
    (∀ out, allocate_funds_ix st fund_key to_key st.fund_account.admin amt =
        .ok out →
      ∃ e, lookupEntry st.whitelist to_acc.owner = some e ∧
        e.is_active = true ∧ e.address = to_acc.owner) := by
  refine ⟨?_, ?_, ?_⟩
  · intro hnone
    rw [allocate_funds_ix_eq]
    simp [hfk, htk, hnone]
  · intro e hsome hinact
    rw [allocate_funds_ix_eq]
    simp [hfk, htk, hsome, hfund, hinact]
  · intro out hok
    rw [allocate_funds_ix_eq] at hok
    simp only [hfk, htk] at hok
    cases hl : lookupEntry st.whitelist to_acc.owner with
    | none => rw [hl] at hok; cases hok
    | some e =>
      rw [hl] at hok
      refine ⟨e, rfl, ?_⟩
      by_cases h3 : e.is_active = true
      · by_cases h4 : e.address = to_acc.owner
        · exact ⟨h3, h4⟩
        · simp [hfund, h3, h4] at hok
      · simp [hfund, h3] at hok

/-- Witness for C3: recipient 2's entry is present but inactive, so the
admin's disbursement of 5 out of 10 (from the custody account at address
7 to the recipient account at address 3) is rejected. -/
theorem allocate_whitelist_gate_witness :
    allocate_funds_ix
      { fund_account := ⟨0, 10, 255, 1⟩,
        tokens := [(7, ⟨100, 10⟩), (3, ⟨2, 0⟩)],
        whitelist := [(2, ⟨2, "partner", false, 0, 0⟩)] }
      7 3 0 5 = .error (.fund .RecipientNotWhitelisted) :=
  (allocate_whitelist_gate
      { fund_account := ⟨0, 10, 255, 1⟩,
        tokens := [(7, ⟨100, 10⟩), (3, ⟨2, 0⟩)],
        whitelist := [(2, ⟨2, "partner", false, 0, 0⟩)] }
      7 3 ⟨100, 10⟩ ⟨2, 0⟩ 5 (by rfl) (by rfl) (by decide)).2.1
    ⟨2, "partner", false, 0, 0⟩ rfl rfl

/-- C5: a checked add that would overflow `total_funds` (in `store_funds`)
or `whitelist_count` (in `add_whitelist`) aborts the operation with the
arithmetic failure, never saturating or wrapping into a partial success;
the checked subtract in `allocate_funds` can never underflow because the
insufficient-funds check precedes it. -/
theorem checked_arith_aborts :
    (∀ (fa : FundAccount) (src dst : TokenAccount) (auth : Pubkey)
       (amt : Nat), amt ≤ src.amount → dst.amount + amt ≤ U64_MAX →
       fa.total_funds + amt > U64_MAX →
       store_funds fa src dst auth amt = .error .arithmeticPanic) ∧
    (∀ (fa : FundAccount) (addr : Pubkey) (label : String) (now : Int),
       label.utf8ByteSize ≤ 64 → fa.whitelist_count + 1 > U16_MAX →
       add_whitelist fa fa.admin addr label now = .error .arithmeticPanic) ∧
    (∀ (fa : FundAccount) (ft tt : TokenAccount) (we : WhitelistEntry)
       (admin : Pubkey) (amt : Nat),
       allocate_funds fa ft tt we admin amt ≠ .error .arithmeticPanic) := by
  refine ⟨?_, ?_, ?_⟩
  · intro fa src dst auth amt h1 h2 h3
    rw [store_funds_eq, if_pos ⟨h1, h2⟩, if_neg (by omega)]
  · intro fa addr label now h1 h2
    rw [add_whitelist_eq, if_pos rfl, if_pos h1, if_neg (by omega)]
  · intro fa ft tt we admin amt
    rw [allocate_funds_eq]
    repeat' split
    all_goals simp

/-- Witness for C5: a ledger already holding `u64::MAX` aborts a deposit of
1 with the arithmetic failure. -/
theorem checked_arith_aborts_witness :
    store_funds ⟨0, U64_MAX, 255, 0⟩ ⟨1, 1⟩ ⟨9, 0⟩ 1 1 =
      .error .arithmeticPanic :=
  checked_arith_aborts.1 ⟨0, U64_MAX, 255, 0⟩ ⟨1, 1⟩ ⟨9, 0⟩ 1 1
    (by decide) (by decide) (by decide)

/-- C6: `store_funds` performs no admin check — its result does not depend
on the caller, and it never fails with an authorization error — and the
transfer and the counter increment are jointly atomic: whenever the
transfer between the caller-named accounts fails, the instruction fails
with that error and the committed state (in particular `total_funds`) is
unchanged. -/
theorem store_funds_open_and_atomic :
    (∀ (fa : FundAccount) (src dst : TokenAccount) (a1 a2 : Pubkey)
       (amt : Nat),
       store_funds fa src dst a1 amt = store_funds fa src dst a2 amt) ∧
    (∀ (fa : FundAccount) (src dst : TokenAccount) (auth : Pubkey)
       (amt : Nat),
       store_funds fa src dst auth amt ≠
         .error (.fund .UnauthorizedAdmin)) ∧
    (∀ (st : ChainState) (from_key fund_key auth : Pubkey) (amt : Nat)
       (e : ProgramError),
       transferInStore st.tokens from_key fund_key amt = .error e →
       store_funds_ix st from_key fund_key auth amt = .error e ∧
       commit st (store_funds_ix st from_key fund_key auth amt) = st) := by
  refine ⟨?_, ?_, ?_⟩
  · intro fa src dst a1 a2 amt
    rw [store_funds_eq, store_funds_eq]
  · intro fa src dst auth amt
    rw [store_funds_eq]
    repeat' split
    all_goals simp
  · intro st from_key fund_key auth amt e htr
    have hix : store_funds_ix st from_key fund_key auth amt = .error e := by
      rw [store_funds_ix_eq, htr]
    exact ⟨hix, by rw [hix]; rfl⟩

/-- Witness for C6: a depositor whose token account (address 1) holds 3
cannot deposit 5 into the account at address 2; the transfer fails and the
committed chain state is unchanged. -/
theorem store_funds_open_and_atomic_witness :
    store_funds_ix
      { fund_account := ⟨0, 7, 255, 0⟩,
        tokens := [(1, ⟨1, 3⟩), (2, ⟨100, 7⟩)], whitelist := [] }
      1 2 1 5 = .error .transferFailed ∧
    commit
      { fund_account := ⟨0, 7, 255, 0⟩,
        tokens := [(1, ⟨1, 3⟩), (2, ⟨100, 7⟩)], whitelist := [] }
      (store_funds_ix
        { fund_account := ⟨0, 7, 255, 0⟩,
          tokens := [(1, ⟨1, 3⟩), (2, ⟨100, 7⟩)], whitelist := [] }
        1 2 1 5) =
      { fund_account := ⟨0, 7, 255, 0⟩,
        tokens := [(1, ⟨1, 3⟩), (2, ⟨100, 7⟩)], whitelist := [] } :=
  store_funds_open_and_atomic.2.2
    { fund_account := ⟨0, 7, 255, 0⟩,
      tokens := [(1, ⟨1, 3⟩), (2, ⟨100, 7⟩)], whitelist := [] }
    1 2 1 5 .transferFailed (by rfl)

/-- C7: `add_whitelist` called by the admin fails with `LabelTooLong` when
the label exceeds 64 bytes, fails with the keyed-collision error when an
entry for the recipient already exists, and otherwise (the `u16` creation
counter not being saturated) creates an entry with `is_active = true`,
`address` the recipient identity, `added_by` the caller, `added_at` the
current timestamp, and increments `whitelist_count` by one. -/
theorem add_whitelist_spec (st : LedgerState) (addr : Pubkey)
    (label : String) (now : Int) :
    ((∃ e, lookupEntry st.whitelist addr = some e) →
      add_whitelist_ix st st.fund_account.admin addr label now =
        .error .accountAlreadyInUse) ∧
    (lookupEntry st.whitelist addr = none → label.utf8ByteSize > 64 →
      add_whitelist_ix st st.fund_account.admin addr label now =
        .error (.fund .LabelTooLong)) ∧
    (lookupEntry st.whitelist addr = none → label.utf8ByteSize ≤ 64 →
      st.fund_account.whitelist_count + 1 ≤ U16_MAX →
      add_whitelist_ix st st.fund_account.admin addr label now =
        .ok { st with
              fund_account := { st.fund_account with
                whitelist_count := st.fund_account.whitelist_count + 1 },
              whitelist := (addr,
                { address := addr, label := label, is_active := true,
                  added_by := st.fund_account.admin, added_at := now })
                :: st.whitelist }) := by
  refine ⟨?_, ?_, ?_⟩
  · rintro ⟨e, he⟩
    rw [add_whitelist_ix_eq, he]
  · intro hnone hlong
    rw [add_whitelist_ix_eq, hnone]
    simp [hlong, Nat.not_le_of_lt hlong]
  · intro hnone hshort hcnt
    rw [add_whitelist_ix_eq, hnone]
    simp [hshort, hcnt]

/-- Witness for C7: the admin whitelists recipient 5 with label "partner"
at time 42 on a fresh deployment; the entry is created active and the
counter moves from 0 to 1. -/
theorem add_whitelist_spec_witness :
    add_whitelist_ix
      { fund_account := ⟨0, 0, 255, 0⟩, fund_token_account := ⟨9, 0⟩,
        whitelist := [] } 0 5 "partner" 42 =
      .ok { fund_account := ⟨0, 0, 255, 1⟩, fund_token_account := ⟨9, 0⟩,
            whitelist := [(5, ⟨5, "partner", true, 0, 42⟩)] } :=
  (add_whitelist_spec
    { fund_account := ⟨0, 0, 255, 0⟩, fund_token_account := ⟨9, 0⟩,
      whitelist := [] } 5 "partner" 42).2.2 rfl (by decide) (by decide)

/-- C8: after a successful `set_admin B` by the current admin A ≠ B, a
subsequent `allocate_funds` by A fails with the authorization error, while
the same call by B succeeds (its other preconditions holding). -/
theorem set_admin_rotation (fa : FundAccount) (B : Pubkey)
    (ft tt : TokenAccount) (we : WhitelistEntry) (amt : Nat)
    (hne : fa.admin ≠ B) (hfund : fa.total_funds ≥ amt)
    (hact : we.is_active = true) (haddr : we.address = tt.owner)
    (hbal : amt ≤ ft.amount) (hcap : tt.amount + amt ≤ U64_MAX) :
    set_admin fa fa.admin B = .ok { fa with admin := B } ∧
    allocate_funds { fa with admin := B } ft tt we fa.admin amt =
      .error (.fund .UnauthorizedAdmin) ∧
    allocate_funds { fa with admin := B } ft tt we B amt =
      .ok ({ fa with admin := B, total_funds := fa.total_funds - amt },
           { ft with amount := ft.amount - amt },
           { tt with amount := tt.amount + amt }) := by
  refine ⟨?_, ?_, ?_⟩
  · rw [set_admin_eq, if_pos rfl]
  · rw [allocate_funds_eq, if_neg hne]
  · rw [allocate_funds_eq, if_pos rfl, if_pos hfund, if_pos hact,
        if_pos haddr, if_pos ⟨hbal, hcap⟩]

/-- Witness for C8: admin 0 hands over to 3; 0 is then refused and 3
disburses 4 of the 10 held to the active recipient 2. -/
theorem set_admin_rotation_witness :
    set_admin ⟨0, 10, 255, 1⟩ 0 3 = .ok ⟨3, 10, 255, 1⟩ ∧
    allocate_funds ⟨3, 10, 255, 1⟩ ⟨9, 10⟩ ⟨2, 0⟩ ⟨2, "r", true, 0, 0⟩ 0 4 =
      .error (.fund .UnauthorizedAdmin) ∧
    allocate_funds ⟨3, 10, 255, 1⟩ ⟨9, 10⟩ ⟨2, 0⟩ ⟨2, "r", true, 0, 0⟩ 3 4 =
      .ok (⟨3, 6, 255, 1⟩, ⟨9, 6⟩, ⟨2, 4⟩) :=
  set_admin_rotation ⟨0, 10, 255, 1⟩ 3 ⟨9, 10⟩ ⟨2, 0⟩ ⟨2, "r", true, 0, 0⟩ 4
    (by decide) (by decide) (by decide) (by decide) (by decide) (by decide)

/-- C9: `toggle_whitelist` by the admin with the same `new_state` succeeds
unconditionally, again and again; `remove_whitelist` by the admin succeeds
on an active entry but fails with `WhitelistEntryNotActive` when repeated
on the result. -/
theorem toggle_idempotent_remove_strict (fa : FundAccount)
    (we : WhitelistEntry) (b : Bool) (hact : we.is_active = true) :
    toggle_whitelist fa we fa.admin b =
      .ok (fa, { we with is_active := b }) ∧
    toggle_whitelist fa { we with is_active := b } fa.admin b =
      .ok (fa, { we with is_active := b }) ∧
    remove_whitelist fa we fa.admin =
      .ok (fa, { we with is_active := false }) ∧
    remove_whitelist fa { we with is_active := false } fa.admin =
      .error (.fund .WhitelistEntryNotActive) := by
  refine ⟨?_, ?_, ?_, ?_⟩
  · rw [toggle_whitelist_eq, if_pos rfl]
  · rw [toggle_whitelist_eq, if_pos rfl]
  · rw [remove_whitelist_eq, if_pos rfl, if_pos hact]
  · rw [remove_whitelist_eq, if_pos rfl, if_neg (by simp)]

/-- Witness for C9: toggling recipient 2 active twice succeeds both times;
removing it twice fails the second time. -/
theorem toggle_idempotent_remove_strict_witness :
    toggle_whitelist ⟨0, 10, 255, 1⟩ ⟨2, "r", true, 0, 0⟩ 0 true =
      .ok (⟨0, 10, 255, 1⟩, ⟨2, "r", true, 0, 0⟩) ∧
    remove_whitelist ⟨0, 10, 255, 1⟩ ⟨2, "r", false, 0, 0⟩ 0 =
      .error (.fund .WhitelistEntryNotActive) := by
  have h := toggle_idempotent_remove_strict ⟨0, 10, 255, 1⟩
    ⟨2, "r", true, 0, 0⟩ true (by decide)
  exact ⟨h.1, h.2.2.2⟩

/-- C10: neither `remove_whitelist` nor `toggle_whitelist` changes the
entry's `address`, `label`, `added_by` or `added_at` — the output entry can
differ from the input only at `is_active` — and neither modifies any field
of the `FundAccount`. -/
theorem entry_immutable_frame (fa fa' : FundAccount)
    (we we' : WhitelistEntry) (caller : Pubkey) (b : Bool) :
    (remove_whitelist fa we caller = .ok (fa', we') →
      fa' = fa ∧ we'.address = we.address ∧ we'.label = we.label ∧
      we'.added_by = we.added_by ∧ we'.added_at = we.added_at ∧
      we' = { we with is_active := we'.is_active }) ∧
    (toggle_whitelist fa we caller b = .ok (fa', we') →
      fa' = fa ∧ we'.address = we.address ∧ we'.label = we.label ∧
      we'.added_by = we.added_by ∧ we'.added_at = we.added_at ∧
      we' = { we with is_active := we'.is_active }) := by
  constructor
  · intro h
    rw [remove_whitelist_eq] at h
    repeat' split at h
    all_goals cases h
    simp
  · intro h
    rw [toggle_whitelist_eq] at h
    repeat' split at h
    all_goals cases h
    simp

/-- Witness for C10: toggling recipient 2 inactive keeps every identity
field and the ledger untouched. -/
theorem entry_immutable_frame_witness :
    (⟨0, 10, 255, 1⟩ : FundAccount) = ⟨0, 10, 255, 1⟩ ∧
    (2 : Pubkey) = 2 ∧ ("r" : String) = "r" ∧ (0 : Pubkey) = 0 ∧
    (7 : Int) = 7 ∧
    (⟨2, "r", false, 0, 7⟩ : WhitelistEntry) = ⟨2, "r", false, 0, 7⟩ :=
  (entry_immutable_frame ⟨0, 10, 255, 1⟩ ⟨0, 10, 255, 1⟩
    ⟨2, "r", true, 0, 7⟩ ⟨2, "r", false, 0, 7⟩ 0 false).2 (by rfl)

end FundManager
